import Mathlib

/-!
Verification of the ControllerTools backend discovery pipeline
(`src/backend/src/api.rs` and `src/backend/src/api/xbox.rs`), as a shallow
embedding in Lean.  Effectful collaborators (HidApi enumeration, udev
scanning, DBus/UPower, the Bluetooth battery service, the HID report
parsers of the missing `nintendo`/`playstation`/`bluetooth`/`controller`
modules, and the debug fixture file) are modelled as an explicit
environment record threaded through the functions.
-/

namespace ControllerTools

/-- Modelled from the spec: the `Status` enumeration of the missing
`controller` module — `Unknown`, `Charging`, and a steady-state-on-battery
variant; only `Unknown` and `Charging` are ever produced. -/
inductive Status where
  | Unknown
  | Charging
  | Discharging
deriving DecidableEq, Repr

/-- Modelled from the spec: the `Controller` output entity of the missing
`controller` module — vendor/product identifiers, display name, capacity
percentage, status, the transport-derived identifier (`gip`, used as dedup
key: serial number or udev path token), and the fixture flag `is_fake`. -/
structure Controller where
  name : String
  vendor_id : Nat
  product_id : Nat
  capacity : Nat
  status : Status
  gip : String
  is_fake : Bool
deriving DecidableEq, Repr

/-- A raw HID enumeration record (`hidapi::DeviceInfo`): vendor/product id,
optional serial number, and the interface number (-1 meaning non-USB). -/
structure DeviceInfo where
  vendor_id : Nat
  product_id : Nat
  serial_number : Option String
  interface_number : Int
deriving DecidableEq, Repr

/-- A raw OS-subsystem (udev, subsystem "input") record: vendor/product id
and the path-derived identifier token that `Controller::from_udev` exposes
as the `gip` field. -/
structure UdevDevice where
  vendor_id : Nat
  product_id : Nat
  gip : String
deriving DecidableEq, Repr

/-- Modelled from the spec: `Controller::from_udev` of the missing
`controller` module builds a `Controller` from a udev record plus the
explicitly supplied name, capacity, status and fixture flag. -/
def Controller.from_udev (d : UdevDevice) (name : String) (capacity : Nat)
    (status : Status) (is_fake : Bool) : Controller :=
  { name := name, vendor_id := d.vendor_id, product_id := d.product_id,
    capacity := capacity, status := status, gip := d.gip, is_fake := is_fake }

/-- The DBus/UPower world seen by `get_battery_percentage_for_gip`:
whether `Connection::new_system()` succeeds, the result of
`EnumerateDevices` (none = the call failed), and the per-object-path
`Percentage` property (none = the property read failed).  UPower reports
the percentage as a float; the model restricts it to integer-valued
reports, for which Rust's `as u8` cast is truncation saturated at 255. -/
structure DBusEnv where
  connect_ok : Bool
  enumerate_devices : Option (List String)
  percentage : String → Option Nat

/-- Modelled from the spec: result of parsing a controller's periodic HID
status report — a capacity 0–100 and a boolean charging signal. -/
structure Report where
  capacity : Nat
  charging : Bool
deriving DecidableEq, Repr

/-- The whole external world of one `controllers()` call: HidApi
construction, the HID device list, `cfg!(debug_assertions)`, the fixture
file (`none` = open failed; `some none` = opened but JSON parse failed;
`some (some c)` = parsed controller `c`), the per-device HID report parse
outcome (modelled from the spec for the missing `nintendo`/`playstation`
modules), the Bluetooth battery query outcome (modelled from the spec for
the missing `bluetooth` module: `none` = address resolution or battery
read failed), udev enumerator construction, the udev scan results, and
the DBus world. -/
structure Env where
  hidapi_ok : Bool
  hid_devices : List DeviceInfo
  debug_assertions : Bool
  fake_file : Option (Option Controller)
  report : DeviceInfo → Except String Report
  bt_percentage : DeviceInfo → Option Nat
  udev_ok : Bool
  udev_devices : List UdevDevice
  dbus : DBusEnv

/-- Rust's `str::starts_with`, as a prefix test on the character list
(Lean's `String.startsWith` is extensionally the same but does not reduce
in the kernel). -/
def startsWithRs (s pre : String) : Bool :=
  pre.data.isPrefixOf s.data

/-- Rust's `str::replace` with a single-character pattern, as used in
`gip.replace(".", "x")`: map every occurrence of the pattern character to
the replacement character. -/
def replaceCharRs (s : String) (pat repl : Char) : String :=
  String.mk (s.data.map fun ch => if ch == pat then repl else ch)

/-- The character-list worker of `splitCharRs`. -/
def splitCharGo (sep : Char) : List Char → List Char → List String
  | acc, [] => [String.mk acc.reverse]
  | acc, ch :: rest =>
    if ch == sep then String.mk acc.reverse :: splitCharGo sep [] rest
    else splitCharGo sep (ch :: acc) rest

/-- Rust's `str::split` with a single-character separator, as used in
`device_path_str.split('/')`. -/
def splitCharRs (sep : Char) (s : String) : List String :=
  splitCharGo sep [] s.data

namespace nintendo

/-- Modelled from the spec: Nintendo vendor id of the missing `nintendo`
module (the exact value is immaterial to every claim). -/
def VENDOR_ID_NINTENDO : Nat := 0x057e

/-- Modelled from the spec: Pro Controller product id of the missing
`nintendo` module (the exact value is immaterial to every claim). -/
def PRODUCT_ID_NINTENDO_PROCON : Nat := 0x2009

/-- Modelled from the spec: `nintendo::parse_controller_data` parses the
device's HID status report into a capacity and a charging bit, mapped to
`Charging`/`Unknown`; a parse failure propagates as an error. -/
def parse_controller_data (env : Env) (d : DeviceInfo) : Except String Controller :=
  match env.report d with
  | .error e => .error e
  | .ok r =>
    .ok { name := "Nintendo Controller", vendor_id := d.vendor_id,
          product_id := d.product_id, capacity := r.capacity,
          status := if r.charging then .Charging else .Unknown,
          gip := d.serial_number.getD "", is_fake := false }

end nintendo

namespace playstation

/-- Sony vendor id (0x054c). Modelled from the spec for the missing
`playstation` module. -/
def DS_VENDOR_ID : Nat := 0x054c

/-- DualShock 3 product id. Modelled from the spec. -/
def DS3_PRODUCT_ID : Nat := 0x0268

/-- DualSense product id. Modelled from the spec. -/
def DS_PRODUCT_ID : Nat := 0x0ce6

/-- DualSense Edge product id. Modelled from the spec. -/
def DS_EDGE_PRODUCT_ID : Nat := 0x0df2

/-- New DualShock 4 product id. Modelled from the spec. -/
def DS4_NEW_PRODUCT_ID : Nat := 0x09cc

/-- Old DualShock 4 product id. Modelled from the spec. -/
def DS4_OLD_PRODUCT_ID : Nat := 0x05c4

/-- Modelled from the spec: the shared shape of the missing `playstation`
parse functions — HID report in, `Controller` with the given display name
out, a charging bit mapped to `Charging`/`Unknown`. -/
def parse_report (env : Env) (d : DeviceInfo) (name : String) : Except String Controller :=
  match env.report d with
  | .error e => .error e
  | .ok r =>
    .ok { name := name, vendor_id := d.vendor_id, product_id := d.product_id,
          capacity := r.capacity,
          status := if r.charging then .Charging else .Unknown,
          gip := d.serial_number.getD "", is_fake := false }

/-- Modelled from the spec: `playstation::parse_dualshock3_controller_data`. -/
def parse_dualshock3_controller_data (env : Env) (d : DeviceInfo) (name : String) :
    Except String Controller :=
  parse_report env d name

/-- Modelled from the spec: `playstation::parse_dualsense_controller_data`. -/
def parse_dualsense_controller_data (env : Env) (d : DeviceInfo) (name : String) :
    Except String Controller :=
  parse_report env d name

/-- Modelled from the spec: `playstation::parse_dualshock_controller_data`
(both DualShock 4 product ids). -/
def parse_dualshock_controller_data (env : Env) (d : DeviceInfo) :
    Except String Controller :=
  parse_report env d "DualShock 4"

end playstation

namespace xbox

/-- `MS_VENDOR_ID` (xbox.rs line 14). -/
def MS_VENDOR_ID : Nat := 0x045e

/-- Xbox One S USB product id (xbox.rs line 17). -/
def XBOX_ONE_S_CONTROLLER_USB_PRODUCT_ID : Nat := 0x02ea

/-- Xbox One S Bluetooth product id (xbox.rs line 18). -/
def XBOX_ONE_S_CONTROLLER_BT_PRODUCT_ID : Nat := 0x02df

/-- Xbox One S latest-firmware product id (xbox.rs line 22). -/
def XBOX_ONE_S_LATEST_FW_PRODUCT_ID : Nat := 0x0b20

/-- Xbox Wireless Controller USB product id (xbox.rs line 25). -/
def XBOX_WIRELESS_CONTROLLER_USB_PRODUCT_ID : Nat := 0x0b12

/-- Xbox Wireless Controller Bluetooth product id (xbox.rs line 26). -/
def XBOX_WIRELESS_CONTROLLER_BT_PRODUCT_ID : Nat := 0x0b13

/-- Xbox Elite 2 USB product id (xbox.rs line 29). -/
def XBOX_WIRELESS_ELITE_CONTROLLER_USB_PRODUCT_ID : Nat := 0x0b00

/-- Xbox Elite 2 Bluetooth product id (xbox.rs line 30). -/
def XBOX_WIRELESS_ELITE_CONTROLLER_BT_PRODUCT_ID : Nat := 0x0b05

/-- Xbox Elite 2 BTLE product id (xbox.rs line 31). -/
def XBOX_WIRELESS_ELITE_CONTROLLER_BTLE_PRODUCT_ID : Nat := 0x0b22

/-- Xbox accessory product id (xbox.rs line 33). -/
def XBOX_ACCESSORY_PID : Nat := 0x02fe

/-- `get_xbox_controller_name` (xbox.rs lines 36–49). -/
def get_xbox_controller_name (product_id : Nat) : String :=
  if product_id = XBOX_ONE_S_CONTROLLER_USB_PRODUCT_ID then "Xbox One S"
  else if product_id = XBOX_ONE_S_CONTROLLER_BT_PRODUCT_ID then "Xbox One S"
  else if product_id = XBOX_ONE_S_LATEST_FW_PRODUCT_ID then "Xbox One S"
  else if product_id = XBOX_WIRELESS_CONTROLLER_USB_PRODUCT_ID then "Xbox Series X/S"
  else if product_id = XBOX_WIRELESS_CONTROLLER_BT_PRODUCT_ID then "Xbox Series X/S"
  else if product_id = XBOX_WIRELESS_ELITE_CONTROLLER_USB_PRODUCT_ID then "Xbox Elite 2"
  else if product_id = XBOX_WIRELESS_ELITE_CONTROLLER_BT_PRODUCT_ID then "Xbox Elite 2"
  else if product_id = XBOX_WIRELESS_ELITE_CONTROLLER_BTLE_PRODUCT_ID then "Xbox Elite 2"
  else if product_id = XBOX_ACCESSORY_PID then "Wireless Adapter"
  else "Xbox Unknown"

/-- `is_xbox_controller` (xbox.rs lines 51–53). -/
def is_xbox_controller (vendor_id : Nat) : Bool :=
  vendor_id == MS_VENDOR_ID

/-- The device-matching loop of `get_battery_percentage_for_gip`
(xbox.rs lines 135–157): find the first enumerated object path whose first
"battery_"-prefixed path component equals the normalized gip, return its
`Percentage` property cast to `u8` (0 if the property read fails); 0 when
no path matches. -/
def gip_device_loop (dbus : DBusEnv) (normalized_gip : String) :
    List String → Nat
  | [] => 0
  | path :: rest =>
    match (splitCharRs '/' path).find? (fun s => startsWithRs s "battery_") with
    | some upower_gip =>
      if upower_gip = normalized_gip then
        match dbus.percentage path with
        | some p => min p 255
        | none => 0
      else gip_device_loop dbus normalized_gip rest
    | none => gip_device_loop dbus normalized_gip rest

/-- `get_battery_percentage_for_gip` (xbox.rs lines 101–158): 10 when the
system-bus connection fails, 20 when `EnumerateDevices` fails, otherwise
the result of the device-matching loop. -/
def get_battery_percentage_for_gip (dbus : DBusEnv) (gip : String) : Nat :=
  let normalized_gip := "battery_" ++ replaceCharRs gip '.' 'x'
  if dbus.connect_ok = false then 10
  else
    match dbus.enumerate_devices with
    | none => 20
    | some devices => gip_device_loop dbus normalized_gip devices

/-- `update_xbox_controller` (xbox.rs lines 55–76). -/
def update_xbox_controller (dbus : DBusEnv) (controller : Controller)
    (bluetooth : Bool) : Controller :=
  { controller with
    name := get_xbox_controller_name controller.product_id,
    capacity :=
      if startsWithRs controller.gip "gip" then
        get_battery_percentage_for_gip dbus controller.gip
      else if bluetooth then 0
      else 100,
    status :=
      if startsWithRs controller.gip "gip" then Status.Unknown
      else if bluetooth then Status.Unknown
      else Status.Charging }

/-- `parse_xbox_controller_data` (xbox.rs lines 78–99): capacity from the
Bluetooth battery query, 0 on any failure; status always `Unknown`.
(`Controller::from_hidapi` is modelled from the spec: identity fields from
the record, serial number as the transport-derived identifier.) -/
def parse_xbox_controller_data (env : Env) (d : DeviceInfo) : Controller :=
  { name := get_xbox_controller_name d.product_id,
    vendor_id := d.vendor_id, product_id := d.product_id,
    capacity := (env.bt_percentage d).getD 0,
    status := Status.Unknown,
    gip := d.serial_number.getD "", is_fake := false }

end xbox

/-- The comparison loop of Rust's `Vec::dedup_by` with the serial-number
equality predicate: each element is compared with the last *kept* element
and dropped when the serial numbers are equal. -/
def dedupBySerialGo (last : DeviceInfo) : List DeviceInfo → List DeviceInfo
  | [] => []
  | y :: ys =>
    if y.serial_number == last.serial_number then dedupBySerialGo last ys
    else y :: dedupBySerialGo y ys

/-- `Vec::dedup_by(|a, b| a.serial_number() == b.serial_number())` as used
on `xbox_controllers` (api.rs line 84) and `unique_devices` (api.rs
line 118): collapse consecutively-adjacent records with equal serial
numbers, keeping the first occurrence. -/
def dedupBySerial : List DeviceInfo → List DeviceInfo
  | [] => []
  | x :: xs => x :: dedupBySerialGo x xs

/-- The Nintendo Pro Controller vendor/product filter (api.rs lines 31–37). -/
def nintendoProFilter (devices : List DeviceInfo) : List DeviceInfo :=
  devices.filter fun d =>
    d.vendor_id == nintendo.VENDOR_ID_NINTENDO
      && d.product_id == nintendo.PRODUCT_ID_NINTENDO_PROCON

/-- The Nintendo Pro Controller record selection (api.rs lines 39–55):
cardinality 1 or 2 keeps the first record; cardinality 3 keeps the record
found with `interface_number == -1` (if any); every other cardinality
keeps nothing. -/
def nintendoProSelect (devices : List DeviceInfo) : List DeviceInfo :=
  let pro := nintendoProFilter devices
  if pro.length = 1 ∨ pro.length = 2 then pro.take 1
  else if pro.length = 3 then
    (pro.find? fun d => d.interface_number == -1).toList
  else []

/-- The non-Pro Nintendo filter (api.rs lines 57–63). -/
def nintendoNonProFilter (devices : List DeviceInfo) : List DeviceInfo :=
  devices.filter fun d =>
    d.vendor_id == nintendo.VENDOR_ID_NINTENDO
      && !(d.product_id == nintendo.PRODUCT_ID_NINTENDO_PROCON)

/-- The Xbox HID vendor/product filter (api.rs lines 71–83). -/
def xboxHidFilter (devices : List DeviceInfo) : List DeviceInfo :=
  devices.filter fun d =>
    d.vendor_id == xbox.MS_VENDOR_ID
      && (d.product_id == xbox.XBOX_ONE_S_CONTROLLER_BT_PRODUCT_ID
        || d.product_id == xbox.XBOX_ONE_S_LATEST_FW_PRODUCT_ID
        || d.product_id == xbox.XBOX_WIRELESS_CONTROLLER_USB_PRODUCT_ID
        || d.product_id == xbox.XBOX_WIRELESS_CONTROLLER_BT_PRODUCT_ID
        || d.product_id == xbox.XBOX_WIRELESS_ELITE_CONTROLLER_USB_PRODUCT_ID
        || d.product_id == xbox.XBOX_WIRELESS_ELITE_CONTROLLER_BT_PRODUCT_ID
        || d.product_id == xbox.XBOX_WIRELESS_ELITE_CONTROLLER_BTLE_PRODUCT_ID)

/-- The match arms of the Xbox HID loop (api.rs lines 86–114): only these
five (vendor, product) pairs produce a controller; the two USB product ids
that passed the filter fall into the wildcard arm and are skipped. -/
def xboxMatchArm (d : DeviceInfo) : Bool :=
  d.vendor_id == xbox.MS_VENDOR_ID
    && (d.product_id == xbox.XBOX_ONE_S_CONTROLLER_BT_PRODUCT_ID
      || d.product_id == xbox.XBOX_ONE_S_LATEST_FW_PRODUCT_ID
      || d.product_id == xbox.XBOX_WIRELESS_CONTROLLER_BT_PRODUCT_ID
      || d.product_id == xbox.XBOX_WIRELESS_ELITE_CONTROLLER_BT_PRODUCT_ID
      || d.product_id == xbox.XBOX_WIRELESS_ELITE_CONTROLLER_BTLE_PRODUCT_ID)

/-- One iteration of the PlayStation/generic loop over `unique_devices`
(api.rs lines 119–167): the five Sony match arms produce one parsed
controller each, every other pair produces nothing. -/
def playstationArm (env : Env) (d : DeviceInfo) : Except String (List Controller) :=
  if d.vendor_id == playstation.DS_VENDOR_ID
      && d.product_id == playstation.DS3_PRODUCT_ID then
    (playstation.parse_dualshock3_controller_data env d "DualShock3").map ([·])
  else if d.vendor_id == playstation.DS_VENDOR_ID
      && d.product_id == playstation.DS_PRODUCT_ID then
    (playstation.parse_dualsense_controller_data env d "DualSense").map ([·])
  else if d.vendor_id == playstation.DS_VENDOR_ID
      && d.product_id == playstation.DS_EDGE_PRODUCT_ID then
    (playstation.parse_dualsense_controller_data env d "DualSense Edge").map ([·])
  else if d.vendor_id == playstation.DS_VENDOR_ID
      && d.product_id == playstation.DS4_NEW_PRODUCT_ID then
    (playstation.parse_dualshock_controller_data env d).map ([·])
  else if d.vendor_id == playstation.DS_VENDOR_ID
      && d.product_id == playstation.DS4_OLD_PRODUCT_ID then
    (playstation.parse_dualshock_controller_data env d).map ([·])
  else .ok []

/-- `parse_fake_controller` (api.rs lines 195–211): the fixture controller
when the file opens and parses, nothing otherwise; never an error. -/
def fakeControllers (env : Env) : List Controller :=
  match env.fake_file with
  | some (some c) => [c]
  | _ => []

/-- The HID half of `controllers()` (api.rs lines 24–167): the contents of
the first `controllers` vector, in push order — debug fixture, Nintendo
Pro selection, non-Pro Nintendo, deduplicated Xbox records surviving the
match arms, deduplicated PlayStation records.  A parse error propagates
(`?`). -/
def hidPass (env : Env) : Except String (List Controller) :=
  let cs0 := if env.debug_assertions then fakeControllers env else []
  match (nintendoProSelect env.hid_devices).mapM
      (nintendo.parse_controller_data env) with
  | .error e => .error e
  | .ok npParsed =>
    match (nintendoNonProFilter env.hid_devices).mapM
        (nintendo.parse_controller_data env) with
    | .error e => .error e
    | .ok nonProParsed =>
      let xboxParsed := ((dedupBySerial (xboxHidFilter env.hid_devices)).filter
        xboxMatchArm).map (xbox.parse_xbox_controller_data env)
      match (dedupBySerial env.hid_devices).mapM (playstationArm env) with
      | .error e => .error e
      | .ok psParsed =>
        .ok (cs0 ++ npParsed ++ nonProParsed ++ xboxParsed ++ psParsed.flatten)

/-- The udev loop of `controllers()` (api.rs lines 175–190), with the
`seen_gips` set and the accumulated result made explicit: skip records
whose `gip` neither starts with "gip" nor "input" and the reserved
"gip0.1"; on first occurrence of a `gip`, record it and, when the vendor
is Microsoft's, push the updated controller. -/
def udevPassGo (dbus : DBusEnv) (seen : List String) :
    List UdevDevice → List Controller
  | [] => []
  | d :: ds =>
    let controller := Controller.from_udev d "Unknown Controller" 0 Status.Unknown false
    if !(startsWithRs controller.gip "gip" || startsWithRs controller.gip "input")
        || controller.gip == "gip0.1" then
      udevPassGo dbus seen ds
    else if seen.contains controller.gip then
      udevPassGo dbus seen ds
    else if xbox.is_xbox_controller controller.vendor_id then
      xbox.update_xbox_controller dbus controller false
        :: udevPassGo dbus (controller.gip :: seen) ds
    else
      udevPassGo dbus (controller.gip :: seen) ds

/-- The udev pass starting from the fresh `controllers` vector and the
empty `seen_gips` set (api.rs lines 172–190). -/
def udevPass (dbus : DBusEnv) (devices : List UdevDevice) : List Controller :=
  udevPassGo dbus [] devices

/-- `controllers()` (api.rs lines 20–193): fail if HidApi construction
fails; run the HID half; fail if the udev enumerator cannot be built; then
— because api.rs line 172 rebinds `controllers` to a fresh vector — drop
the HID half's vector and return the udev pass's result alone. -/
def controllers (env : Env) : Except String (List Controller) :=
  if env.hidapi_ok = false then .error "HidApi::new failed"
  else
    match hidPass env with
    | .error e => .error e
    | .ok _controllers_before_rebind =>
      if env.udev_ok = false then .error "udev Enumerator failed"
      else .ok (udevPass env.dbus env.udev_devices)

/-! ### Helper lemmas about the udev pass and the whole pipeline -/

/-- When `controllers` succeeds, the returned list is exactly the udev
pass's output: the rebinding at api.rs line 172 discards the HID half. -/
theorem controllers_ok_eq (env : Env) (l : List Controller)
    (h : controllers env = .ok l) : l = udevPass env.dbus env.udev_devices := by
  unfold controllers at h
  cases hh : env.hidapi_ok with
  | false => rw [hh] at h; simp at h
  | true =>
    rw [hh] at h
    simp only [Bool.true_eq_false, if_false] at h
    cases hp : hidPass env with
    | error e => rw [hp] at h; simp at h
    | ok cs =>
      rw [hp] at h
      cases hu : env.udev_ok with
      | false => rw [hu] at h; simp at h
      | true =>
        rw [hu] at h
        simp only [Bool.true_eq_false, if_false, Except.ok.injEq] at h
        exact h.symm

/-- Every controller emitted by the udev loop passed the
`is_xbox_controller` vendor check. -/
theorem udevPassGo_mem_vendor (dbus : DBusEnv) :
    ∀ (ds : List UdevDevice) (seen : List String) (c : Controller),
      c ∈ udevPassGo dbus seen ds → xbox.is_xbox_controller c.vendor_id = true := by
  intro ds
  induction ds with
  | nil => intro seen c h; simp [udevPassGo] at h
  | cons d ds ih =>
    intro seen c h
    unfold udevPassGo at h
    simp only [] at h
    split at h
    · exact ih seen c h
    · split at h
      · exact ih seen c h
      · split at h
        · rcases List.mem_cons.mp h with h1 | h2
          · subst h1
            simpa [xbox.update_xbox_controller, Controller.from_udev] using ‹_›
          · exact ih _ c h2
        · exact ih _ c h

/-- No controller emitted by the udev loop carries a gip that was already
in the `seen_gips` set the loop started from. -/
theorem udevPassGo_mem_not_seen (dbus : DBusEnv) :
    ∀ (ds : List UdevDevice) (seen : List String) (c : Controller),
      c ∈ udevPassGo dbus seen ds → seen.contains c.gip = false := by
  intro ds
  induction ds with
  | nil => intro seen c h; simp [udevPassGo] at h
  | cons d ds ih =>
    intro seen c h
    unfold udevPassGo at h
    simp only [] at h
    split at h
    · exact ih seen c h
    · split at h
      · exact ih seen c h
      · rename_i hskip hseen
        split at h
        · rcases List.mem_cons.mp h with h1 | h2
          · subst h1
            simpa [xbox.update_xbox_controller, Controller.from_udev] using hseen
          · have := ih _ c h2
            simp only [List.contains_cons, Bool.or_eq_false_iff] at this
            exact this.2
        · have := ih _ c h
          simp only [List.contains_cons, Bool.or_eq_false_iff] at this
          exact this.2

/-- The controllers emitted by the udev loop have pairwise distinct gips. -/
theorem udevPassGo_pairwise (dbus : DBusEnv) :
    ∀ (ds : List UdevDevice) (seen : List String),
      (udevPassGo dbus seen ds).Pairwise (fun a b => a.gip ≠ b.gip) := by
  intro ds
  induction ds with
  | nil => intro seen; simp [udevPassGo]
  | cons d ds ih =>
    intro seen
    unfold udevPassGo
    simp only []
    split
    · exact ih seen
    · split
      · exact ih seen
      · split
        · refine List.Pairwise.cons ?_ (ih _)
          intro b hb
          have hnot := udevPassGo_mem_not_seen dbus ds _ b hb
          simp only [List.contains_cons, Bool.or_eq_false_iff] at hnot
          have : (b.gip == (Controller.from_udev d "Unknown Controller" 0
            Status.Unknown false).gip) = false := hnot.1
          simp only [xbox.update_xbox_controller, Controller.from_udev] at this ⊢
          intro hEq
          rw [hEq] at this
          simp at this
        · exact ih _

/-- The UPower device-matching loop yields at most 100 when every
percentage the service reports is at most 100. -/
theorem gip_device_loop_le (dbus : DBusEnv) (n : String)
    (hp : ∀ s p, dbus.percentage s = some p → p ≤ 100) :
    ∀ paths, xbox.gip_device_loop dbus n paths ≤ 100 := by
  intro paths
  induction paths with
  | nil => simp [xbox.gip_device_loop]
  | cons path rest ih =>
    unfold xbox.gip_device_loop
    split
    · split
      · cases hq : dbus.percentage path with
        | none => simp
        | some p =>
          simp only []
          exact le_trans (Nat.min_le_left p 255) (hp path p hq)
      · exact ih
    · exact ih

/-- `get_battery_percentage_for_gip` yields at most 100 when every
percentage the service reports is at most 100 (the 10 and 20 failure
sentinels are within range). -/
theorem get_battery_percentage_for_gip_le (dbus : DBusEnv) (gip : String)
    (hp : ∀ s p, dbus.percentage s = some p → p ≤ 100) :
    xbox.get_battery_percentage_for_gip dbus gip ≤ 100 := by
  unfold xbox.get_battery_percentage_for_gip
  simp only []
  split
  · omega
  · split
    · omega
    · exact gip_device_loop_le dbus _ hp _

/-- Every controller the udev loop emits has capacity at most 100 when
every percentage the service reports is at most 100. -/
theorem udevPassGo_capacity_le (dbus : DBusEnv)
    (hp : ∀ s p, dbus.percentage s = some p → p ≤ 100) :
    ∀ (ds : List UdevDevice) (seen : List String) (c : Controller),
      c ∈ udevPassGo dbus seen ds → c.capacity ≤ 100 := by
  intro ds
  induction ds with
  | nil => intro seen c h; simp [udevPassGo] at h
  | cons d ds ih =>
    intro seen c h
    unfold udevPassGo at h
    simp only [] at h
    split at h
    · exact ih seen c h
    · split at h
      · exact ih seen c h
      · split at h
        · rcases List.mem_cons.mp h with h1 | h2
          · subst h1
            show (xbox.update_xbox_controller dbus _ false).capacity ≤ 100
            unfold xbox.update_xbox_controller
            simp only []
            split
            · exact get_battery_percentage_for_gip_le dbus _ hp
            · simp
          · exact ih _ c h2
        · exact ih _ c h

/-- Processing a udev record that fails the gip/input-prefix filter (or is
the reserved "gip0.1") is a no-op for the loop, whatever came before it. -/
theorem udevPassGo_skip (dbus : DBusEnv) (d : UdevDevice)
    (hd : (!(startsWithRs d.gip "gip" || startsWithRs d.gip "input")
        || d.gip == "gip0.1") = true) :
    ∀ (pre : List UdevDevice) (seen : List String) (post : List UdevDevice),
      udevPassGo dbus seen (pre ++ d :: post) = udevPassGo dbus seen (pre ++ post) := by
  intro pre
  induction pre with
  | nil =>
    intro seen post
    simp only [List.nil_append]
    conv_lhs => unfold udevPassGo
    simp only [Controller.from_udev] at *
    rw [if_pos hd]
  | cons p pre ih =>
    intro seen post
    simp only [List.cons_append]
    conv_lhs => unfold udevPassGo
    conv_rhs => unfold udevPassGo
    simp only []
    split
    · exact ih seen post
    · split
      · exact ih seen post
      · split
        · rw [ih _ post]
        · exact ih _ post

/-- When every `Percentage` property read fails, the device-matching loop
yields 0 — whether or not some path matches the normalized gip. -/
theorem gip_device_loop_all_none (dbus : DBusEnv) (n : String) :
    ∀ paths, (∀ path ∈ paths, dbus.percentage path = none) →
      xbox.gip_device_loop dbus n paths = 0 := by
  intro paths
  induction paths with
  | nil => intro _; simp [xbox.gip_device_loop]
  | cons path rest ih =>
    intro hall
    unfold xbox.gip_device_loop
    split
    · split
      · rw [hall path (List.mem_cons_self _ _)]
      · exact ih fun q hq => hall q (List.mem_cons_of_mem _ hq)
    · exact ih fun q hq => hall q (List.mem_cons_of_mem _ hq)

/-- The gip-distinctness invariant on a result list: no two entries share
the transport-derived identifier used as the udev dedup key. -/
def gipDistinct (l : List Controller) : Prop :=
  l.Pairwise fun a b => a.gip ≠ b.gip

/-! ### Concrete inputs -/

/-- A neutral DBus world: connection up, no power devices. -/
def dbusBase : DBusEnv :=
  { connect_ok := true, enumerate_devices := some [], percentage := fun _ => none }

/-- A neutral environment: everything constructible, no devices anywhere. -/
def envBase : Env :=
  { hidapi_ok := true, hid_devices := [], debug_assertions := false,
    fake_file := none,
    report := fun _ => .ok { capacity := 55, charging := false },
    bt_percentage := fun _ => none,
    udev_ok := true, udev_devices := [], dbus := dbusBase }

/-- One real DualSense HID record (Sony vendor 0x054c). -/
def dsRecordC1 : DeviceInfo :=
  { vendor_id := 0x054c, product_id := 0x0ce6, serial_number := some "s1",
    interface_number := 0 }

/-- The C1 scenario: exactly that record from the HID source, nothing from
the OS-subsystem source. -/
def envC1 : Env := { envBase with hid_devices := [dsRecordC1] }

/-- The DualSense controller the HID half assembles for `dsRecordC1`. -/
def dsControllerC1 : Controller :=
  { name := "DualSense", vendor_id := 0x054c, product_id := 0x0ce6,
    capacity := 55, status := Status.Unknown, gip := "s1", is_fake := false }

/-! ### Claims -/

/-- Claim C1: with exactly one raw HID record carrying vendor 0x054c and
the DualSense product id and no OS-subsystem records, the spec says
discovery returns exactly one DualSense controller named "DualSense".
The HID half does assemble exactly that controller, but api.rs line 172
rebinds `controllers` to a fresh vector, so the discovery call returns the
empty list: the assembled DualSense never reaches the caller. -/
theorem C1_dualsense_assembled_then_dropped :
    hidPass envC1 = .ok [dsControllerC1]
    ∧ controllers envC1 = .ok [] :=
  ⟨rfl, rfl⟩

/-- Claim C2: whenever discovery succeeds, the returned list is exactly
the output of the udev (OS-subsystem) pass — the HID-assembled
controllers were discarded by the rebinding at api.rs line 172 — and every
returned controller passed the `is_xbox_controller` vendor check
(vendor_id = 0x045e). -/
theorem C2_result_is_udev_xbox_only (env : Env) (l : List Controller)
    (h : controllers env = .ok l) :
    l = udevPass env.dbus env.udev_devices
      ∧ ∀ c ∈ l, xbox.is_xbox_controller c.vendor_id = true := by
  have he := controllers_ok_eq env l h
  refine ⟨he, ?_⟩
  intro c hc
  rw [he] at hc
  exact udevPassGo_mem_vendor env.dbus env.udev_devices [] c hc

/-- A udev record for an Xbox Series X/S controller surfaced through the
input subsystem. -/
def udevDevC2 : UdevDevice :=
  { vendor_id := 0x045e, product_id := 0x0b13, gip := "input42" }

/-- The C2 witness environment: one udev Xbox record, nothing else. -/
def envC2 : Env := { envBase with udev_devices := [udevDevC2] }

/-- The controller the udev pass assembles for `udevDevC2`. -/
def cC2 : Controller :=
  xbox.update_xbox_controller envC2.dbus
    (Controller.from_udev udevDevC2 "Unknown Controller" 0 Status.Unknown false) false

/-- Witness for C2 at a concrete input. -/
theorem C2_result_is_udev_xbox_only_witness :
    [cC2] = udevPass envC2.dbus envC2.udev_devices
      ∧ xbox.is_xbox_controller cC2.vendor_id = true := by
  have h := C2_result_is_udev_xbox_only envC2 [cC2] (by rfl)
  exact ⟨h.1, h.2 cC2 (List.mem_singleton_self cC2)⟩

/-- A well-formed debug fixture controller, tagged `is_fake = true`. -/
def fakeC3 : Controller :=
  { name := "Fake Controller", vendor_id := 1, product_id := 2,
    capacity := 42, status := Status.Unknown, gip := "fake0", is_fake := true }

/-- The C3 scenario: debug build, well-formed fixture, no real hardware. -/
def envC3 : Env :=
  { envBase with debug_assertions := true, fake_file := some (some fakeC3) }

/-- The C3 malformed-fixture scenario: the file opens but JSON parsing
fails. -/
def envC3bad : Env :=
  { envBase with debug_assertions := true, fake_file := some none }

/-- Claim C3: the spec says a well-formed fixture in a debug build adds
exactly one `is_fake = true` controller to the discovery result.  The
fixture is indeed parsed and pushed by the HID half, but the rebinding at
api.rs line 172 discards it, so the discovery result contains no fixture
controller.  (The malformed-fixture half of the claim does hold: a parse
failure adds nothing and discovery still succeeds.) -/
theorem C3_fixture_assembled_then_dropped :
    fakeC3.is_fake = true
    ∧ hidPass envC3 = .ok [fakeC3]
    ∧ controllers envC3 = .ok []
    ∧ controllers envC3bad = .ok [] :=
  ⟨rfl, rfl, rfl, rfl⟩

/-- Claim C4: a controller resolved by the heuristic default — its gip
does not start with "gip", so no power-service lookup is attempted — gets
status `Charging` and capacity 100 when `bluetooth = false` (USB), and
status `Unknown` and capacity 0 when `bluetooth = true`. -/
theorem C4_heuristic_default_values (dbus : DBusEnv) (c : Controller)
    (h : startsWithRs c.gip "gip" = false) :
    ((xbox.update_xbox_controller dbus c false).status = Status.Charging
      ∧ (xbox.update_xbox_controller dbus c false).capacity = 100)
    ∧ ((xbox.update_xbox_controller dbus c true).status = Status.Unknown
      ∧ (xbox.update_xbox_controller dbus c true).capacity = 0) := by
  unfold xbox.update_xbox_controller
  simp [h]

/-- A controller whose identifier token comes from the "input" transport
tag, so battery resolution falls through to the heuristic default. -/
def cC4 : Controller :=
  { name := "Unknown Controller", vendor_id := 0x045e, product_id := 0x0b13,
    capacity := 0, status := Status.Unknown, gip := "input7", is_fake := false }

/-- Witness for C4 at a concrete input. -/
theorem C4_heuristic_default_values_witness :
    ((xbox.update_xbox_controller dbusBase cC4 false).status = Status.Charging
      ∧ (xbox.update_xbox_controller dbusBase cC4 false).capacity = 100)
    ∧ ((xbox.update_xbox_controller dbusBase cC4 true).status = Status.Unknown
      ∧ (xbox.update_xbox_controller dbusBase cC4 true).capacity = 0) :=
  C4_heuristic_default_values dbusBase cC4 (by rfl)

/-- An Xbox accessory controller identified by its reserved gip-style
token (product id `XBOX_ACCESSORY_PID`). -/
def cC5 : Controller :=
  { name := "Unknown Controller", vendor_id := 0x045e, product_id := 0x02fe,
    capacity := 0, status := Status.Unknown, gip := "gip0.0", is_fake := false }

/-- A DBus world whose system-bus connection fails, so the targeted
power-service lookup fails. -/
def dbusC5fail : DBusEnv :=
  { connect_ok := false, enumerate_devices := none, percentage := fun _ => none }

/-- Counterexample to claim C5 as stated: for the gip-identified accessory
`cC5`, when the power-service lookup fails (system-bus connection down)
the assembled controller's status is `Unknown`, not `Charging`, and its
capacity is the 10 sentinel, not 0. -/
theorem C5_failure_not_charging_counterexample :
    (xbox.update_xbox_controller dbusC5fail cC5 false).status ≠ Status.Charging
    ∧ (xbox.update_xbox_controller dbusC5fail cC5 false).capacity ≠ 0 := by
  decide

/-- Claim C5 as amended: for every controller identified by a gip-style
token the resolver skips the transport battery query — the capacity is
exactly the targeted power-service lookup's result, whatever the transport
flag — and the status is always `Unknown` (never `Charging`); on failure
the capacity is 10 when the system-bus connection fails, 20 when power
device enumeration fails, and 0 when every `Percentage` property read
fails (which covers both a missing matching device and a failing property
read). -/
theorem C5_accessory_gip_lookup_amended (dbus : DBusEnv) (c : Controller)
    (b : Bool) (h : startsWithRs c.gip "gip" = true) :
    (xbox.update_xbox_controller dbus c b).capacity
        = xbox.get_battery_percentage_for_gip dbus c.gip
    ∧ (xbox.update_xbox_controller dbus c b).status = Status.Unknown
    ∧ (dbus.connect_ok = false →
        xbox.get_battery_percentage_for_gip dbus c.gip = 10)
    ∧ (dbus.connect_ok = true → dbus.enumerate_devices = none →
        xbox.get_battery_percentage_for_gip dbus c.gip = 20)
    ∧ (∀ paths, dbus.connect_ok = true → dbus.enumerate_devices = some paths →
        (∀ path ∈ paths, dbus.percentage path = none) →
        xbox.get_battery_percentage_for_gip dbus c.gip = 0) := by
  refine ⟨?_, ?_, ?_, ?_, ?_⟩
  · unfold xbox.update_xbox_controller; simp [h]
  · unfold xbox.update_xbox_controller; simp [h]
  · intro hc
    unfold xbox.get_battery_percentage_for_gip
    simp [hc]
  · intro hc he
    unfold xbox.get_battery_percentage_for_gip
    simp [hc, he]
  · intro paths hc he hall
    unfold xbox.get_battery_percentage_for_gip
    simp only [hc, he, Bool.true_eq_false, if_false]
    exact gip_device_loop_all_none dbus _ paths hall

/-- A DBus world where the matching power device exists but its
`Percentage` property read fails. -/
def dbusC5w : DBusEnv :=
  { connect_ok := true,
    enumerate_devices := some ["/org/freedesktop/UPower/devices/battery_gip0x0"],
    percentage := fun _ => none }

/-- Witness for the amended C5 at a concrete input: the lookup's result is
committed as the capacity, the status stays `Unknown`, and the failed
property read yields capacity 0. -/
theorem C5_accessory_gip_lookup_amended_witness :
    (xbox.update_xbox_controller dbusC5w cC5 false).capacity
        = xbox.get_battery_percentage_for_gip dbusC5w cC5.gip
    ∧ (xbox.update_xbox_controller dbusC5w cC5 false).status = Status.Unknown
    ∧ xbox.get_battery_percentage_for_gip dbusC5w cC5.gip = 0 := by
  have h := C5_accessory_gip_lookup_amended dbusC5w cC5 false (by rfl)
  exact ⟨h.1, h.2.1,
    h.2.2.2.2 ["/org/freedesktop/UPower/devices/battery_gip0x0"] rfl rfl
      (fun path _ => rfl)⟩

/-- The capacities of a discovery result (empty when discovery failed). -/
def resultCapacities (e : Except String (List Controller)) : List Nat :=
  match e with
  | .ok l => l.map (·.capacity)
  | .error _ => []

/-- A udev record whose gip token has a matching UPower power device. -/
def udevDevC6 : UdevDevice :=
  { vendor_id := 0x045e, product_id := 0x02fe, gip := "gip0.0" }

/-- The C6 counterexample environment: the power service reports a
percentage of 150 for the matching device. -/
def envC6 : Env :=
  { envBase with
    udev_devices := [udevDevC6],
    dbus := { connect_ok := true,
              enumerate_devices :=
                some ["/org/freedesktop/UPower/devices/battery_gip0x0"],
              percentage := fun _ => some 150 } }

/-- Counterexample to claim C6 as stated: when the external power service
reports a percentage of 150, discovery succeeds and returns a controller
whose capacity is 150 — outside [0,100].  The `Percentage` value is passed
through `as u8` with no clamping to 100. -/
theorem C6_capacity_out_of_range_counterexample :
    resultCapacities (controllers envC6) = [150] := by
  decide

/-- Claim C6 as amended: every capacity in a successful discovery result
lies in [0,100] provided every percentage the external power service
reports is itself at most 100 (the heuristic constants 0 and 100 and the
10/20 failure sentinels are always in range; only the service passthrough
can exceed it). -/
theorem C6_capacity_range_amended (env : Env) (l : List Controller)
    (hp : ∀ s p, env.dbus.percentage s = some p → p ≤ 100)
    (h : controllers env = .ok l) :
    ∀ c ∈ l, c.capacity ≤ 100 := by
  intro c hc
  rw [controllers_ok_eq env l h] at hc
  exact udevPassGo_capacity_le env.dbus hp env.udev_devices [] c hc

/-- The C6 witness environment: the service reports 50 for the matching
device. -/
def envC6ok : Env :=
  { envBase with
    udev_devices := [udevDevC6],
    dbus := { connect_ok := true,
              enumerate_devices :=
                some ["/org/freedesktop/UPower/devices/battery_gip0x0"],
              percentage := fun _ => some 50 } }

/-- The controller the udev pass assembles in `envC6ok`. -/
def cC6ok : Controller :=
  xbox.update_xbox_controller envC6ok.dbus
    (Controller.from_udev udevDevC6 "Unknown Controller" 0 Status.Unknown false) false

/-- Witness for the amended C6 at a concrete input. -/
theorem C6_capacity_range_amended_witness : cC6ok.capacity ≤ 100 := by
  have h := C6_capacity_range_amended envC6ok [cC6ok]
    (by intro s p hsp; injection hsp with hv; omega) (by rfl)
  exact h cC6ok (List.mem_singleton_self cC6ok)

/-- Claim C7: the Nintendo Pro Controller slot.  Cardinality 1 or 2 of
the filtered raw records selects exactly the first record; cardinality 3
(given a record with the non-USB sentinel interface number -1 among them,
which the claim's scenario presupposes) selects exactly the first such
record — a record with interface_number = -1, never a USB-origin one; any
other cardinality selects nothing.  Each selected record is parsed into
exactly one controller by the HID pass. -/
theorem C7_nintendo_pro_cardinality (devices : List DeviceInfo) :
    ((nintendoProFilter devices).length = 1 ∨ (nintendoProFilter devices).length = 2 →
      nintendoProSelect devices = (nintendoProFilter devices).take 1
        ∧ (nintendoProSelect devices).length = 1)
    ∧ ((nintendoProFilter devices).length = 3 →
      ∀ d ∈ nintendoProFilter devices, d.interface_number = -1 →
        ((nintendoProFilter devices).find?
            (fun x => x.interface_number == -1)).isSome = true
        ∧ ∀ d0, (nintendoProFilter devices).find?
            (fun x => x.interface_number == -1) = some d0 →
          d0 ∈ nintendoProFilter devices ∧ d0.interface_number = -1
            ∧ nintendoProSelect devices = [d0])
    ∧ ((nintendoProFilter devices).length = 0
        ∨ 4 ≤ (nintendoProFilter devices).length →
      nintendoProSelect devices = []) := by
  refine ⟨?_, ?_, ?_⟩
  · intro h12
    have hsel : nintendoProSelect devices = (nintendoProFilter devices).take 1 := by
      unfold nintendoProSelect
      simp only []
      rw [if_pos h12]
    refine ⟨hsel, ?_⟩
    rw [hsel]
    simp only [List.length_take]
    omega
  · intro h3 d hd hifc
    have hpred : (fun x : DeviceInfo => x.interface_number == -1) d = true := by
      simp [hifc]
    refine ⟨List.find?_isSome.mpr ⟨d, hd, hpred⟩, ?_⟩
    intro d0 hf
    have hm := List.mem_of_find?_eq_some hf
    have hp0 : d0.interface_number = -1 := by
      have := List.find?_some hf
      simpa using this
    refine ⟨hm, hp0, ?_⟩
    unfold nintendoProSelect
    simp only []
    rw [if_neg (by omega), if_pos h3, hf]
    rfl
  · intro h
    unfold nintendoProSelect
    simp only []
    rw [if_neg (by omega), if_neg (by omega)]

/-- The first USB-origin Pro Controller record of the C7 scenario. -/
def nproUsb1 : DeviceInfo :=
  { vendor_id := 0x057e, product_id := 0x2009, serial_number := some "n1",
    interface_number := 0 }

/-- The second USB-origin Pro Controller record of the C7 scenario. -/
def nproUsb2 : DeviceInfo :=
  { vendor_id := 0x057e, product_id := 0x2009, serial_number := some "n2",
    interface_number := 0 }

/-- The Bluetooth-origin Pro Controller record of the C7 scenario. -/
def nproBt : DeviceInfo :=
  { vendor_id := 0x057e, product_id := 0x2009, serial_number := some "n3",
    interface_number := -1 }

/-- The C7 scenario's HID listing: USB + USB + Bluetooth. -/
def nproDevicesC7 : List DeviceInfo := [nproUsb1, nproUsb2, nproBt]

/-- Witness for C7: with three Pro Controller records of which only the
third is non-USB, the selection is exactly the Bluetooth record; with no
records, nothing is selected. -/
theorem C7_nintendo_pro_cardinality_witness :
    nintendoProSelect nproDevicesC7 = [nproBt]
    ∧ nproBt.interface_number = -1
    ∧ nintendoProSelect ([] : List DeviceInfo) = [] := by
  have h := (C7_nintendo_pro_cardinality nproDevicesC7).2.1 (by decide)
    nproBt (by decide) (by decide)
  have hf := h.2 nproBt (by decide)
  have h0 := (C7_nintendo_pro_cardinality ([] : List DeviceInfo)).2.2
    (Or.inl (by decide))
  exact ⟨hf.2.2, hf.2.1, h0⟩

/-- Claim C8: the serial-number dedup used both in the Xbox per-family
pass and in the global PlayStation/generic pass collapses
consecutively-adjacent records with equal serial numbers to the first
occurrence, while equal-serial records separated by a differing-serial
record are all kept. -/
theorem C8_adjacent_serial_dedup :
    (∀ (x y : DeviceInfo) (l : List DeviceInfo),
      x.serial_number = y.serial_number →
        dedupBySerial (x :: y :: l) = dedupBySerial (x :: l))
    ∧ (∀ (x y : DeviceInfo) (l : List DeviceInfo),
      x.serial_number ≠ y.serial_number →
        dedupBySerial (x :: y :: l) = x :: dedupBySerial (y :: l))
    ∧ (∀ (a c b : DeviceInfo),
      a.serial_number = b.serial_number → a.serial_number ≠ c.serial_number →
        dedupBySerial [a, c, b] = [a, c, b]) := by
  refine ⟨?_, ?_, ?_⟩
  · intro x y l h
    have hb : (y.serial_number == x.serial_number) = true := beq_iff_eq.mpr h.symm
    simp [dedupBySerial, dedupBySerialGo, hb]
  · intro x y l h
    have hb : (y.serial_number == x.serial_number) = false := by
      simp only [beq_eq_false_iff_ne, ne_eq]
      exact fun hh => h hh.symm
    simp [dedupBySerial, dedupBySerialGo, hb]
  · intro a c b h1 h2
    have hb1 : (c.serial_number == a.serial_number) = false := by
      simp only [beq_eq_false_iff_ne, ne_eq]
      exact fun hh => h2 hh.symm
    have hb2 : (b.serial_number == c.serial_number) = false := by
      simp only [beq_eq_false_iff_ne, ne_eq]
      exact fun hh => h2 (h1.trans hh)
    simp [dedupBySerial, dedupBySerialGo, hb1, hb2]

/-- An Xbox HID record with serial "SER-A". -/
def devSerA1 : DeviceInfo :=
  { vendor_id := 0x045e, product_id := 0x0b13, serial_number := some "SER-A",
    interface_number := 0 }

/-- A second record with the same serial "SER-A". -/
def devSerA2 : DeviceInfo :=
  { vendor_id := 0x045e, product_id := 0x0b13, serial_number := some "SER-A",
    interface_number := 1 }

/-- A record with the differing serial "SER-B". -/
def devSerB : DeviceInfo :=
  { vendor_id := 0x045e, product_id := 0x0b13, serial_number := some "SER-B",
    interface_number := 0 }

/-- Witness for C8 at concrete records: adjacent duplicates collapse,
non-adjacent duplicates all survive. -/
theorem C8_adjacent_serial_dedup_witness :
    dedupBySerial [devSerA1, devSerA2] = dedupBySerial [devSerA1]
    ∧ dedupBySerial [devSerA1, devSerB] = devSerA1 :: dedupBySerial [devSerB]
    ∧ dedupBySerial [devSerA1, devSerB, devSerA2] = [devSerA1, devSerB, devSerA2] := by
  have h := C8_adjacent_serial_dedup
  exact ⟨h.1 devSerA1 devSerA2 [] (by decide),
    h.2.1 devSerA1 devSerB [] (by decide),
    h.2.2 devSerA1 devSerB devSerA2 (by decide) (by decide)⟩

/-- Claim C9: a udev record whose identifier token starts with neither
"gip" nor "input", or whose token is exactly the reserved "gip0.1", is
skipped outright: removing it from the scan leaves the udev pass's output
(and its dedup state) unchanged, so it never produces a controller and
never reaches the vendor classification. -/
theorem C9_udev_token_filter (dbus : DBusEnv) (pre post : List UdevDevice)
    (d : UdevDevice)
    (hd : (¬(startsWithRs d.gip "gip" = true ∨ startsWithRs d.gip "input" = true))
        ∨ d.gip = "gip0.1") :
    udevPass dbus (pre ++ d :: post) = udevPass dbus (pre ++ post) := by
  have hb : (!(startsWithRs d.gip "gip" || startsWithRs d.gip "input")
      || d.gip == "gip0.1") = true := by
    rcases hd with h | h
    · simp only [not_or, Bool.not_eq_true] at h
      simp [h.1, h.2]
    · simp [h]
  exact udevPassGo_skip dbus d hb pre [] post

/-- A udev record carrying the reserved diagnostic token "gip0.1". -/
def udevDevDiag : UdevDevice :=
  { vendor_id := 0x045e, product_id := 0x02fe, gip := "gip0.1" }

/-- A udev record whose token has no recognized transport-tag prefix. -/
def udevDevNoTag : UdevDevice :=
  { vendor_id := 0x045e, product_id := 0x0b13, gip := "event3" }

/-- A surviving udev record used as context around the skipped ones. -/
def udevDevKept : UdevDevice :=
  { vendor_id := 0x045e, product_id := 0x0b13, gip := "input5" }

/-- Witness for C9 at concrete records: the reserved "gip0.1" record and
an unrecognized-prefix record each vanish from the pass. -/
theorem C9_udev_token_filter_witness :
    udevPass dbusBase [udevDevDiag, udevDevKept] = udevPass dbusBase [udevDevKept]
    ∧ udevPass dbusBase [udevDevNoTag, udevDevKept] = udevPass dbusBase [udevDevKept] :=
  ⟨C9_udev_token_filter dbusBase [] [udevDevKept] udevDevDiag (Or.inr rfl),
   C9_udev_token_filter dbusBase [] [udevDevKept] udevDevNoTag (Or.inl (by decide))⟩

/-- Claim C10: within one successful discovery result no two controllers
share the udev dedup key (the exact identifier token `gip`): the
`seen_gips` set-membership dedup makes the returned gips pairwise
distinct, even when one physical device reports through several records. -/
theorem C10_result_gip_distinct (env : Env) (l : List Controller)
    (h : controllers env = .ok l) : gipDistinct l := by
  rw [controllers_ok_eq env l h]
  exact udevPassGo_pairwise env.dbus env.udev_devices []

/-- A udev Xbox record with token "input8". -/
def udevDevC10a : UdevDevice :=
  { vendor_id := 0x045e, product_id := 0x0b13, gip := "input8" }

/-- A udev Xbox record with token "input9". -/
def udevDevC10b : UdevDevice :=
  { vendor_id := 0x045e, product_id := 0x02df, gip := "input9" }

/-- The C10 witness environment: the "input8" device reports itself twice. -/
def envC10 : Env :=
  { envBase with udev_devices := [udevDevC10a, udevDevC10a, udevDevC10b] }

/-- The controller assembled for `udevDevC10a`. -/
def cC10a : Controller :=
  xbox.update_xbox_controller envC10.dbus
    (Controller.from_udev udevDevC10a "Unknown Controller" 0 Status.Unknown false) false

/-- The controller assembled for `udevDevC10b`. -/
def cC10b : Controller :=
  xbox.update_xbox_controller envC10.dbus
    (Controller.from_udev udevDevC10b "Unknown Controller" 0 Status.Unknown false) false

/-- Witness for C10 at a concrete input: a device reporting twice yields
one entry, and the result's gips are pairwise distinct. -/
theorem C10_result_gip_distinct_witness : gipDistinct [cC10a, cC10b] :=
  C10_result_gip_distinct envC10 [cC10a, cC10b] (by rfl)

end ControllerTools
